import Mathlib

set_option maxRecDepth 8192

/-!
Shallow embedding of `.task.py`, the check engine of the git-workshop
repository.  The engine shells out to `git`; we model each read-only git
invocation by an oracle (`Repo`) giving the raw stdout of that invocation,
and embed the Python post-processing of the stdout faithfully:
`result.stdout.decode("utf-8").strip().split('\n')` becomes
`pyStrip` / `pySplit` below, which reproduce Python `str.strip()` and
`str.split(sep)` semantics (in particular `''.split('\n') == ['']`).
-/

namespace GitTasks

/-- Python `str.isspace` characters relevant to `str.strip()` with no
argument (ASCII whitespace suffices for git output). -/
def isPySpace (c : Char) : Bool :=
  c = ' ' || c = '\t' || c = '\n' || c = '\r' || c = '\x0b' || c = '\x0c'

/-- Python `s.strip()` on the character list of `s`: drop whitespace from
both ends. -/
def pyStrip (s : List Char) : List Char :=
  ((s.dropWhile isPySpace).reverse.dropWhile isPySpace).reverse

/-- Python `s.split(sep)` for a one-character separator `sep`: note that the
empty string yields `[[]]`, a one-element list holding the empty string. -/
def pySplit (sep : Char) : List Char → List (List Char)
  | [] => [[]]
  | c :: rest =>
    match pySplit sep rest with
    | [] => [[c]]
    | g :: gs => if c = sep then [] :: g :: gs else (c :: g) :: gs

/-- Python `s.strip().split(sep)` lifted back to `String`. -/
def pyStripSplit (sep : Char) (s : String) : List String :=
  (pySplit sep (pyStrip s.data)).map List.asString

def FORMAT_HASH : String := "%H"

def FORMAT_SUMMARY : String := "%s"

/-- Oracle for the external `git` processes the engine runs in read-only
mode: the raw stdout of each invocation, indexed by its arguments. -/
structure Repo where
  /-- stdout of `git log --pretty=<fmt> origin/tasks..<branch>`. -/
  logOutput : String → String → String
  /-- stdout of `git show --pretty=<fmt> -s <commit>`. -/
  showOutput : String → String → String
  /-- stdout of `git diff <a> <b>`. -/
  diffOutput : String → String → String

/-- `commit_log(branch_name, pretty_format)`: stdout of
`git log --pretty=<fmt> origin/tasks..<branch>`, decoded, stripped, and
split on newlines. -/
def commit_log (repo : Repo) (branch_name pretty_format : String) : List String :=
  pyStripSplit '\n' (repo.logOutput branch_name pretty_format)

/-- `commit_show(commit, pretty_format)`: stdout of
`git show --pretty=<fmt> -s <commit>`, decoded and stripped. -/
def commit_show (repo : Repo) (commit pretty_format : String) : String :=
  (pyStrip (repo.showOutput commit pretty_format).data).asString

/-- `git_diff(a, b)`: stdout of `git diff a b`, decoded and stripped. -/
def git_diff (repo : Repo) (a b : String) : String :=
  (pyStrip (repo.diffOutput a b).data).asString

/-! ### The check primitives (lines 56-99 of `.task.py`)

Each `raise TaskCheckException(msg)` becomes `checkFailed msg`; the
exception class prepends `"CHECK FAILED: "` to the message. -/

/-- `raise TaskCheckException(message)`: the constructor prepends
`CHECK FAILED: ` to the message. -/
def checkFailed (message : String) : Except String Unit :=
  .error ("CHECK FAILED: " ++ message)

/-- `check_branches_identical(old_branch, new_branch)`: all the commits in
the two branches are the same. -/
def check_branches_identical (repo : Repo) (old_branch new_branch : String) :
    Except String Unit :=
  if commit_log repo old_branch FORMAT_HASH ≠ commit_log repo new_branch FORMAT_HASH then
    checkFailed ("The `" ++ new_branch ++ "` branch changed.")
  else
    .ok ()

/-- Loop body of `check_old_commits_unchanged`: walk the old branch's
hexshas (newest first); any hexsha absent from the new branch raises,
classified by whether its summary still occurs in the new branch. -/
def checkOldLoop (repo : Repo) (new_hexshas new_summaries : List String) :
    List String → Except String Unit
  | [] => .ok ()
  | hexsha :: rest =>
    if hexsha ∈ new_hexshas then
      checkOldLoop repo new_hexshas new_summaries rest
    else
      if commit_show repo hexsha FORMAT_SUMMARY ∉ new_summaries then
        checkFailed ("A commit is missing: " ++ commit_show repo hexsha FORMAT_SUMMARY)
      else
        checkFailed ("A commit was unexpectedly modified: " ++
          commit_show repo hexsha FORMAT_SUMMARY)

/-- `check_old_commits_unchanged(old_branch, new_branch)`: all the commits
in the old branch are unchanged (same hexsha) in the new branch. -/
def check_old_commits_unchanged (repo : Repo) (old_branch new_branch : String) :
    Except String Unit :=
  let new_hexshas := commit_log repo new_branch FORMAT_HASH
  let new_summaries := commit_log repo new_branch FORMAT_SUMMARY
  checkOldLoop repo new_hexshas new_summaries (commit_log repo old_branch FORMAT_HASH)

/-- Message of `check_commits_count`, after `str.format` substitution. -/
def countMsg (branch : String) (diff : Nat) (quantifier : String) : String :=
  "Unexpected number of commits in branch " ++ branch ++ " (" ++ toString diff ++
    " " ++ quantifier ++ " than expected)."

/-- `check_commits_count(branch, expected_commits_count)`. -/
def check_commits_count (repo : Repo) (branch : String) (expected_commits_count : Int) :
    Except String Unit :=
  let commits_count : Int := (commit_log repo branch FORMAT_HASH).length
  let diff : Nat := (commits_count - expected_commits_count).natAbs
  if commits_count > expected_commits_count then
    checkFailed (countMsg branch diff "more")
  else if commits_count < expected_commits_count then
    checkFailed (countMsg branch diff "less")
  else
    .ok ()

/-- `check_summaries(branch, expected, skip)`: compare the actual summary
enumeration against `expected`, both truncated by Python slicing
`[skip:]` (= `List.drop skip` for the non-negative `skip` used). -/
def check_summaries (repo : Repo) (branch : String) (expected : List String) (skip : Nat) :
    Except String Unit :=
  if (commit_log repo branch FORMAT_SUMMARY).drop skip ≠ expected.drop skip then
    checkFailed ("Unexpected commits in the `" ++ branch ++ "` branch. Expected summaries: \n"
      ++ String.intercalate "\n" expected)
  else
    .ok ()

/-! ### Concrete repositories used as evaluation points -/

/-- A repository in which every git invocation produces empty stdout; in
particular every reference has an empty baseline-relative history. -/
def emptyHistoryRepo : Repo :=
  ⟨fun _ _ => "", fun _ _ => "", fun _ _ => ""⟩

/-- A repository where branch `b` is a rewrite of `origin/b`: the two
histories have identical summaries and identical content (empty diff) but
different hashes. -/
def rewrittenRepo : Repo where
  logOutput := fun branch fmt =>
    if fmt = FORMAT_HASH then
      if branch = "origin/b" then "aaa1\naaa2" else "bbb1\nbbb2"
    else "first summary\nsecond summary"
  showOutput := fun _ _ => ""
  diffOutput := fun _ _ => ""

/-- A repository where the single commit of branch `old` was rewritten in
branch `new`: its hash `h1` is absent from `new`, but its summary
`first summary` is still present there. -/
def rebasedRepo : Repo where
  logOutput := fun branch fmt =>
    if branch = "old" then
      if fmt = FORMAT_HASH then "h1" else "first summary"
    else
      if fmt = FORMAT_HASH then "k1" else "first summary"
  showOutput := fun commit fmt =>
    if commit = "h1" ∧ fmt = FORMAT_SUMMARY then "first summary" else ""
  diffOutput := fun _ _ => ""

/-! ### Helper lemmas about the check primitives -/

theorem checkFailed_ne_ok (m : String) : checkFailed m ≠ .ok () := by
  simp [checkFailed]

theorem checkOldLoop_ok_iff (repo : Repo) (new_hexshas new_summaries : List String)
    (l : List String) :
    checkOldLoop repo new_hexshas new_summaries l = .ok () ↔ ∀ h ∈ l, h ∈ new_hexshas := by
  induction l with
  | nil => simp [checkOldLoop]
  | cons hexsha rest ih =>
    unfold checkOldLoop
    by_cases hmem : hexsha ∈ new_hexshas
    · rw [if_pos hmem, ih]
      simp [hmem]
    · rw [if_neg hmem]
      constructor
      · intro h
        split at h
        · exact absurd h (checkFailed_ne_ok _)
        · exact absurd h (checkFailed_ne_ok _)
      · intro h
        exact absurd (h hexsha (List.mem_cons_self _ _)) hmem

theorem checkOldLoop_first_unmatched (repo : Repo) (new_hexshas new_summaries : List String)
    (l₁ : List String) (h : String) (l₂ : List String)
    (h₁ : ∀ x ∈ l₁, x ∈ new_hexshas) (hh : h ∉ new_hexshas) :
    checkOldLoop repo new_hexshas new_summaries (l₁ ++ h :: l₂) =
      (if commit_show repo h FORMAT_SUMMARY ∉ new_summaries then
        checkFailed ("A commit is missing: " ++ commit_show repo h FORMAT_SUMMARY)
      else
        checkFailed ("A commit was unexpectedly modified: " ++ commit_show repo h FORMAT_SUMMARY)) := by
  induction l₁ with
  | nil =>
    simp only [List.nil_append]
    unfold checkOldLoop
    rw [if_neg hh]
  | cons x rest ih =>
    simp only [List.cons_append]
    unfold checkOldLoop
    rw [if_pos (h₁ x (List.mem_cons_self _ _))]
    exact ih (fun y hy => h₁ y (List.mem_cons_of_mem _ hy))

theorem check_summaries_ok_iff (repo : Repo) (branch : String) (expected : List String)
    (skip : Nat) :
    check_summaries repo branch expected skip = .ok () ↔
      (commit_log repo branch FORMAT_SUMMARY).drop skip = expected.drop skip := by
  unfold check_summaries
  split
  · next hne => simp [checkFailed, hne]
  · next heq => simpa using not_not.mp heq

end GitTasks

namespace GitTasks

/-- C1: in the code, a reference with an empty baseline-relative history
(raw `git log` stdout empty) makes `commit_log` return `[""]` — the
one-element list holding the empty string — of length 1, so
`check_commits_count` against an expected count of 0 fails, observing
count 1.  This contradicts the spec's normalization requirement. -/
theorem commit_log_empty_history_footgun :
    commit_log emptyHistoryRepo "cherry-pick-main" FORMAT_HASH = [""] ∧
    (commit_log emptyHistoryRepo "cherry-pick-main" FORMAT_HASH).length = 1 ∧
    check_commits_count emptyHistoryRepo "cherry-pick-main" 0 =
      checkFailed (countMsg "cherry-pick-main" 1 "more") := by
  refine ⟨rfl, rfl, rfl⟩

/-- C3: `check_commits_count(R, n)` succeeds iff the enumeration length
equals `n`; otherwise the message reports exactly `abs(actual - n)` with
quantifier `more` when the actual count exceeds `n` and `less` when it
falls short. -/
theorem check_commits_count_spec (repo : Repo) (branch : String) (n : Int) :
    (check_commits_count repo branch n = .ok () ↔
      ((commit_log repo branch FORMAT_HASH).length : Int) = n)
    ∧ (((commit_log repo branch FORMAT_HASH).length : Int) > n →
        check_commits_count repo branch n =
          checkFailed (countMsg branch
            (((commit_log repo branch FORMAT_HASH).length : Int) - n).natAbs "more"))
    ∧ (((commit_log repo branch FORMAT_HASH).length : Int) < n →
        check_commits_count repo branch n =
          checkFailed (countMsg branch
            (((commit_log repo branch FORMAT_HASH).length : Int) - n).natAbs "less")) := by
  unfold check_commits_count
  set c : Int := ((commit_log repo branch FORMAT_HASH).length : Int) with hc
  refine ⟨?_, ?_, ?_⟩
  · constructor
    · intro h
      by_contra hne
      rcases lt_or_gt_of_ne hne with hlt | hgt
      · simp only [if_neg (not_lt.mpr hlt.le), if_pos hlt] at h
        exact absurd h (by simp [checkFailed])
      · simp only [if_pos hgt] at h
        exact absurd h (by simp [checkFailed])
    · intro h
      simp [h]
  · intro h
    simp [h]
  · intro h
    simp [h, not_lt.mpr h.le]

/-- C3 witness: at a concrete repository with a one-element enumeration and
expected count 0, the hypothesis `actual > expected` holds and the check
reports `1 more than expected`. -/
theorem check_commits_count_spec_witness :
    ((commit_log emptyHistoryRepo "b" FORMAT_HASH).length : Int) > 0 ∧
    check_commits_count emptyHistoryRepo "b" 0 =
      checkFailed (countMsg "b"
        (((commit_log emptyHistoryRepo "b" FORMAT_HASH).length : Int) - 0).natAbs "more") :=
  ⟨by decide, (check_commits_count_spec emptyHistoryRepo "b" 0).2.1 (by decide)⟩

/-- C5: against a reference with a non-empty summary enumeration,
`check_summaries` with an empty expected sequence and `skip = 0` fails. -/
theorem check_summaries_empty_expected_fails (repo : Repo) (branch : String)
    (h : commit_log repo branch FORMAT_SUMMARY ≠ []) :
    ∃ m, check_summaries repo branch [] 0 = .error m := by
  unfold check_summaries
  simp only [List.drop_zero, List.drop_nil]
  rw [if_pos h]
  exact ⟨_, rfl⟩

/-- C5 witness: the all-empty repository has summary enumeration `[""]`,
which is a non-empty list, and the check indeed fails on it. -/
theorem check_summaries_empty_expected_fails_witness :
    commit_log emptyHistoryRepo "b" FORMAT_SUMMARY ≠ [] ∧
    ∃ m, check_summaries emptyHistoryRepo "b" [] 0 = .error m :=
  ⟨by decide, check_summaries_empty_expected_fails emptyHistoryRepo "b" (by decide)⟩

/-- C10: `check_branches_identical(A, B)` succeeds iff the hash
enumerations of the two branches are equal; success is symmetric in the
arguments; and a rewritten history with identical summaries and identical
content (empty diff) but different hashes still fails — there is no
summary or content fallback. -/
theorem check_branches_identical_spec :
    (∀ repo old_branch new_branch,
      check_branches_identical repo old_branch new_branch = .ok () ↔
        commit_log repo old_branch FORMAT_HASH = commit_log repo new_branch FORMAT_HASH)
    ∧ (∀ repo old_branch new_branch,
        (check_branches_identical repo old_branch new_branch = .ok () ↔
          check_branches_identical repo new_branch old_branch = .ok ()))
    ∧ ((∃ m, check_branches_identical rewrittenRepo "origin/b" "b" = .error m)
        ∧ commit_log rewrittenRepo "origin/b" FORMAT_SUMMARY =
            commit_log rewrittenRepo "b" FORMAT_SUMMARY
        ∧ git_diff rewrittenRepo "origin/b" "b" = "") := by
  have key : ∀ repo old_branch new_branch,
      check_branches_identical repo old_branch new_branch = .ok () ↔
        commit_log repo old_branch FORMAT_HASH = commit_log repo new_branch FORMAT_HASH := by
    intro repo old_branch new_branch
    unfold check_branches_identical
    split
    · next hne => simp [checkFailed, hne]
    · next heq => simpa using not_not.mp heq
  refine ⟨key, ?_, ?_, by decide, by decide⟩
  · intro repo old_branch new_branch
    rw [key, key, eq_comm]
  · exact ⟨_, rfl⟩

/-- C2 counterexample: in `rebasedRepo` every hash of `old` has a matching
hash or summary in `new` (the summary `first summary` is present), so the
claim's success condition holds, yet the check fails with the
`unexpectedly modified` error. -/
theorem check_old_commits_unchanged_claim_false :
    (∀ h ∈ commit_log rebasedRepo "old" FORMAT_HASH,
      h ∈ commit_log rebasedRepo "new" FORMAT_HASH ∨
        commit_show rebasedRepo h FORMAT_SUMMARY ∈
          commit_log rebasedRepo "new" FORMAT_SUMMARY) ∧
    check_old_commits_unchanged rebasedRepo "old" "new" =
      checkFailed ("A commit was unexpectedly modified: first summary") := by
  constructor
  · decide
  · rfl

/-- C2 (amended): `check_old_commits_unchanged(old, new)` succeeds iff
every hash of the old enumeration appears among the hashes of the new
enumeration (a summary match does not rescue success); when it fails, the
first old hash absent from the new hashes determines the error: the
`unexpectedly modified` message with that commit's summary when the summary
occurs among the new summaries, and the `missing` message otherwise. -/
theorem check_old_commits_unchanged_spec (repo : Repo) (old_branch new_branch : String) :
    (check_old_commits_unchanged repo old_branch new_branch = .ok () ↔
      ∀ h ∈ commit_log repo old_branch FORMAT_HASH,
        h ∈ commit_log repo new_branch FORMAT_HASH)
    ∧ (∀ (l₁ : List String) (h : String) (l₂ : List String),
        commit_log repo old_branch FORMAT_HASH = l₁ ++ h :: l₂ →
        (∀ x ∈ l₁, x ∈ commit_log repo new_branch FORMAT_HASH) →
        h ∉ commit_log repo new_branch FORMAT_HASH →
        check_old_commits_unchanged repo old_branch new_branch =
          (if commit_show repo h FORMAT_SUMMARY ∉ commit_log repo new_branch FORMAT_SUMMARY then
            checkFailed ("A commit is missing: " ++ commit_show repo h FORMAT_SUMMARY)
          else
            checkFailed ("A commit was unexpectedly modified: " ++
              commit_show repo h FORMAT_SUMMARY))) := by
  constructor
  · exact checkOldLoop_ok_iff repo _ _ _
  · intro l₁ h l₂ hlog h₁ hh
    unfold check_old_commits_unchanged
    rw [hlog]
    exact checkOldLoop_first_unmatched repo _ _ l₁ h l₂ h₁ hh

/-- C2 witness: at `rebasedRepo`, the decomposition `[] ++ "h1" :: []` of
the old enumeration satisfies the hypotheses of the failure clause, and the
check indeed produces the `unexpectedly modified` error. -/
theorem check_old_commits_unchanged_spec_witness :
    commit_log rebasedRepo "old" FORMAT_HASH = [] ++ "h1" :: [] ∧
    check_old_commits_unchanged rebasedRepo "old" "new" =
      (if commit_show rebasedRepo "h1" FORMAT_SUMMARY ∉
          commit_log rebasedRepo "new" FORMAT_SUMMARY then
        checkFailed ("A commit is missing: " ++ commit_show rebasedRepo "h1" FORMAT_SUMMARY)
      else
        checkFailed ("A commit was unexpectedly modified: " ++
          commit_show rebasedRepo "h1" FORMAT_SUMMARY)) :=
  ⟨by decide,
    (check_old_commits_unchanged_spec rebasedRepo "old" "new").2 [] "h1" []
      (by decide) (by decide) (by decide)⟩

/-- C4 counterexample: with `skip = len(expected) = 0` and an empty
expected sequence, the check fails against the all-empty repository (whose
summary enumeration is the one-element `[""]`), refuting the claim that
`skip = len(expected)` always succeeds. -/
theorem check_summaries_skip_claim_false :
    0 = List.length ([] : List String) ∧
    check_summaries emptyHistoryRepo "b2" [] 0 =
      checkFailed ("Unexpected commits in the `b2` branch. Expected summaries: \n") :=
  ⟨rfl, rfl⟩

/-- C4 (amended): the pass/fail outcome of `check_summaries` depends only
on the elements from index `skip` onward of both the actual summary
enumeration and the expected sequence; and for `skip = len(expected)` the
check succeeds iff the actual enumeration has at most `skip` elements
(rather than always). -/
theorem check_summaries_skip_spec :
    (∀ (repo₁ repo₂ : Repo) (b₁ b₂ : String) (e₁ e₂ : List String) (skip : Nat),
      (commit_log repo₁ b₁ FORMAT_SUMMARY).drop skip =
        (commit_log repo₂ b₂ FORMAT_SUMMARY).drop skip →
      e₁.drop skip = e₂.drop skip →
      (check_summaries repo₁ b₁ e₁ skip = .ok () ↔
        check_summaries repo₂ b₂ e₂ skip = .ok ()))
    ∧ (∀ (repo : Repo) (b : String) (e : List String),
        check_summaries repo b e e.length = .ok () ↔
          (commit_log repo b FORMAT_SUMMARY).length ≤ e.length) := by
  constructor
  · intro repo₁ repo₂ b₁ b₂ e₁ e₂ skip h₁ h₂
    rw [check_summaries_ok_iff, check_summaries_ok_iff, h₁, h₂]
  · intro repo b e
    rw [check_summaries_ok_iff, List.drop_length]
    exact List.drop_eq_nil_iff

/-- C4 witness: two concrete enumerations and expected sequences that agree
from index 1 onward satisfy the insensitivity hypotheses, and the two check
outcomes are equivalent. -/
theorem check_summaries_skip_spec_witness :
    (commit_log emptyHistoryRepo "wa" FORMAT_SUMMARY).drop 1 =
      (commit_log emptyHistoryRepo "wb" FORMAT_SUMMARY).drop 1 ∧
    (["a"].drop 1 = ["b"].drop 1) ∧
    (check_summaries emptyHistoryRepo "wa" ["a"] 1 = .ok () ↔
      check_summaries emptyHistoryRepo "wb" ["b"] 1 = .ok ()) :=
  ⟨by decide, by decide,
    check_summaries_skip_spec.1 emptyHistoryRepo emptyHistoryRepo "wa" "wb" ["a"] ["b"] 1
      (by decide) (by decide)⟩

end GitTasks

namespace GitTasks

/-! ### The revert lesson (`Revert.check`, lines 585-613 of `.task.py`) -/

/-- Expected summary sequence of the revert lesson; index 0 is the
learner-authored revert commit, skipped by `check_summaries`. -/
def revert_expected_summaries : List String :=
  ["<REVERT COMMIT>",
   "Add explanations to the branching commands",
   "Add basic cheatsheet for working with branches",
   "Make the cheatsheet into a nice table",
   "Add explanations to individual commands",
   "Add commands for inspecting the repo",
   "Add cheatsheet with basic git commands"]

/-- Final step of `Revert.check`: compare `git_diff(commits[4], commits[3])`
with `git_diff(commits[0], commits[1])`, commits newest-first.  Python's
`commits[i]` is total here because the preceding count check guarantees 7
entries; `getD i ""` renders the same accesses. -/
def revert_diff_check (repo : Repo) : Except String Unit :=
  if git_diff repo ((commit_log repo "revert-main" FORMAT_HASH).getD 0 "")
      ((commit_log repo "revert-main" FORMAT_HASH).getD 1 "") ≠
     git_diff repo ((commit_log repo "revert-main" FORMAT_HASH).getD 4 "")
      ((commit_log repo "revert-main" FORMAT_HASH).getD 3 "") then
    checkFailed ("The last commit is not the reverted commit.\n\nExpected diff:\n\n" ++
      git_diff repo ((commit_log repo "revert-main" FORMAT_HASH).getD 4 "")
        ((commit_log repo "revert-main" FORMAT_HASH).getD 3 "") ++
      "\n\nActual diff:\n\n" ++
      git_diff repo ((commit_log repo "revert-main" FORMAT_HASH).getD 0 "")
        ((commit_log repo "revert-main" FORMAT_HASH).getD 1 ""))
  else
    .ok ()

/-- Variant of `revert_diff_check` with the arguments of the second diff
(the revert commit's diff) swapped, to probe directionality. -/
def revert_diff_check_swapped (repo : Repo) : Except String Unit :=
  if git_diff repo ((commit_log repo "revert-main" FORMAT_HASH).getD 1 "")
      ((commit_log repo "revert-main" FORMAT_HASH).getD 0 "") ≠
     git_diff repo ((commit_log repo "revert-main" FORMAT_HASH).getD 4 "")
      ((commit_log repo "revert-main" FORMAT_HASH).getD 3 "") then
    checkFailed "The last commit is not the reverted commit."
  else
    .ok ()

/-- `Revert.check`: the full sequence of assertions of the revert lesson. -/
def Revert_check (repo : Repo) : Except String Unit := do
  check_old_commits_unchanged repo "origin/revert-main" "revert-main"
  check_commits_count repo "revert-main" 7
  check_summaries repo "revert-main" revert_expected_summaries 1
  revert_diff_check repo

/-- Variant of `Revert.check` whose final diff assertion has the revert
commit's diff taken in the swapped direction. -/
def Revert_check_swapped (repo : Repo) : Except String Unit := do
  check_old_commits_unchanged repo "origin/revert-main" "revert-main"
  check_commits_count repo "revert-main" 7
  check_summaries repo "revert-main" revert_expected_summaries 1
  revert_diff_check_swapped repo

/-- Model of `git diff a b` output on whole-file line sets: lines of `a`
absent from `b` prefixed with `-`, then lines of `b` absent from `a`
prefixed with `+`. -/
def renderDiff (a b : List String) : String :=
  String.intercalate "\n"
    ((a.filter (fun l => l ∉ b)).map (fun l => "-" ++ l) ++
     (b.filter (fun l => l ∉ a)).map (fun l => "+" ++ l))

/-- File content at each commit of the concrete revert scenario: commit
`c3` added line `x` on top of `base`; the revert commit `c0` removes it
again from the tip `c1`. -/
def revertContent (c : String) : List String :=
  if c = "c3" ∨ c = "c2" ∨ c = "c1" then ["base", "x"] else ["base"]

/-- A concrete repository holding a correctly solved revert lesson:
`revert-main` is `c0` (the revert) on top of `c1..c6` from origin, with
diffs computed from `revertContent`. -/
def revertRepo : Repo where
  logOutput := fun branch fmt =>
    if branch = "revert-main" then
      if fmt = FORMAT_HASH then "c0\nc1\nc2\nc3\nc4\nc5\nc6"
      else
        "Revert nice table\nAdd explanations to the branching commands\n" ++
        "Add basic cheatsheet for working with branches\n" ++
        "Make the cheatsheet into a nice table\nAdd explanations to individual commands\n" ++
        "Add commands for inspecting the repo\nAdd cheatsheet with basic git commands"
    else
      if fmt = FORMAT_HASH then "c1\nc2\nc3\nc4\nc5\nc6"
      else
        "Add explanations to the branching commands\n" ++
        "Add basic cheatsheet for working with branches\n" ++
        "Make the cheatsheet into a nice table\nAdd explanations to individual commands\n" ++
        "Add commands for inspecting the repo\nAdd cheatsheet with basic git commands"
  showOutput := fun _ _ => ""
  diffOutput := fun a b => renderDiff (revertContent a) (revertContent b)

/-- C6: the revert lesson's final assertion accepts iff the delta from the
reverted commit's parent (`commits[4]`) to the reverted commit
(`commits[3]`) equals the delta from the revert commit (`commits[0]`) to
its parent (`commits[1]`); on a concrete correctly solved lesson (where
the revert commit restores the pre-change content) the full check passes,
while the same check with the second diff's arguments swapped fails —
directionality matters. -/
theorem revert_check_spec :
    (∀ repo : Repo,
      revert_diff_check repo = .ok () ↔
        git_diff repo ((commit_log repo "revert-main" FORMAT_HASH).getD 4 "")
            ((commit_log repo "revert-main" FORMAT_HASH).getD 3 "") =
          git_diff repo ((commit_log repo "revert-main" FORMAT_HASH).getD 0 "")
            ((commit_log repo "revert-main" FORMAT_HASH).getD 1 ""))
    ∧ revertContent "c0" = revertContent "c4"
    ∧ Revert_check revertRepo = .ok ()
    ∧ (∃ m, Revert_check_swapped revertRepo = .error m) := by
  refine ⟨?_, by decide, rfl, ⟨_, rfl⟩⟩
  intro repo
  unfold revert_diff_check
  split
  · next hne => exact iff_of_false (by simp [checkFailed]) (fun h => hne h.symm)
  · next heq => exact iff_of_true rfl (not_not.mp heq).symm

end GitTasks

namespace GitTasks

/-! ### State effect of the check phase (claim about every lesson)

Scanning every `check` method of `.task.py`: all of them only run
read-only git invocations (`git log`, `git show`, `git diff`, `git branch`,
`git status --porcelain`, `git stash list`) and open `source/cheatsheet.md`
for reading — except `ConflictRebase.check` (lines 409-410), which switches
to `conflict-rebase-feature` when it is not the current branch, and
`ConflictRevert.check` (line 1042), which unconditionally runs
`git switch conflict-revert-main`.  We model the repository state a check
can affect (the current branch and the local references) and each lesson's
check as a state transformer. -/

/-- The 24 lessons registered in `task_classes` of `main()`. -/
inductive Lesson where
  | switch | add | commit | log | diff | newBranch | deleteBranch | merge
  | rebase | conflictRebase | commitAmend | resetHard | resetSoft | revert
  | conflictRevert | cherryPick | conflictCherryPick | changeMessage
  | squashCommits | reorganizeCommits | drop | stash | applyStash | blame
deriving DecidableEq

/-- Mutable repository state visible to a check: the current branch (which
also determines the checked-out working-tree content, since no check writes
a file) and the local branch references. -/
structure RepoState where
  current : String
  refs : String → Option String

/-- State effect of each lesson's `check` method: the identity for every
lesson except the two that switch branches. -/
def checkEffect : Lesson → RepoState → RepoState
  | .conflictRebase, s =>
    if s.current ≠ "conflict-rebase-feature" then
      { s with current := "conflict-rebase-feature" }
    else s
  | .conflictRevert, s => { s with current := "conflict-revert-main" }
  | _, s => s

/-- C7 counterexample: `ConflictRevert.check` run from `main` leaves the
repository on `conflict-revert-main`, so the state after the check differs
from the state before it. -/
theorem lesson_check_mutates :
    checkEffect Lesson.conflictRevert ⟨"main", fun _ => none⟩ ≠
      (⟨"main", fun _ => none⟩ : RepoState) := by
  intro h
  have hc := congrArg RepoState.current h
  simp only [checkEffect] at hc
  exact absurd hc (by decide)

/-- C7 (amended): no lesson's check moves a reference, and every lesson's
check other than `ConflictRebase` and `ConflictRevert` leaves the state
unchanged; `ConflictRebase.check` switches to `conflict-rebase-feature`
exactly when it is not current, and `ConflictRevert.check` always leaves
the repository on `conflict-revert-main`. -/
theorem lesson_check_effect_spec (l : Lesson) (s : RepoState) :
    (checkEffect l s).refs = s.refs
    ∧ (l ≠ Lesson.conflictRebase → l ≠ Lesson.conflictRevert → checkEffect l s = s)
    ∧ (checkEffect Lesson.conflictRevert s).current = "conflict-revert-main"
    ∧ checkEffect Lesson.conflictRebase s =
        (if s.current ≠ "conflict-rebase-feature" then
          { s with current := "conflict-rebase-feature" }
        else s) := by
  refine ⟨?_, ?_, rfl, rfl⟩
  · cases l <;> first
      | rfl
      | (dsimp only [checkEffect]; split <;> rfl)
  · intro h1 h2
    cases l <;> first
      | rfl
      | exact absurd rfl h1
      | exact absurd rfl h2

/-- C7 witness: the merge lesson is neither of the two switching lessons,
and its check leaves a concrete state unchanged. -/
theorem lesson_check_effect_spec_witness :
    Lesson.merge ≠ Lesson.conflictRebase ∧ Lesson.merge ≠ Lesson.conflictRevert ∧
    checkEffect Lesson.merge ⟨"main", fun _ => none⟩ = (⟨"main", fun _ => none⟩ : RepoState) :=
  ⟨by decide, by decide,
    (lesson_check_effect_spec Lesson.merge ⟨"main", fun _ => none⟩).2.1 (by decide) (by decide)⟩

end GitTasks

namespace GitTasks

/-! ### External-process invocations and their `check=True` flags

Every `subprocess.run` call site of `.task.py`, with the argv it passes and
whether it passes `check=True` (so that a non-zero exit status raises
`CalledProcessError`).  In `Task.reset_branches` (lines 105-114), the
`git reset --hard` and `git branch -D` invocations deliberately omit
`check=True`. -/

/-- One `subprocess.run` call: its argv and whether `check=True` was
passed. -/
structure Invocation where
  argv : List String
  checked : Bool
deriving DecidableEq

/-- `branch_list()` (line 23). -/
def branch_list_invocations : List Invocation :=
  [⟨["git", "branch"], true⟩]

/-- `current_branch()` (line 29). -/
def current_branch_invocations : List Invocation :=
  [⟨["git", "branch", "--show-current"], true⟩]

/-- `switch_branch(branch)` (line 35). -/
def switch_branch_invocations (branch : String) : List Invocation :=
  [⟨["git", "checkout", branch], true⟩]

/-- `commit_log(branch_name, pretty_format)` (lines 40-44). -/
def commit_log_invocations (branch_name pretty_format : String) : List Invocation :=
  [⟨["git", "log", "--pretty=" ++ pretty_format, "origin/tasks.." ++ branch_name], true⟩]

/-- `commit_show(commit, pretty_format)` (lines 50-52). -/
def commit_show_invocations (commit pretty_format : String) : List Invocation :=
  [⟨["git", "show", "--pretty=" ++ pretty_format, "-s", commit], true⟩]

/-- `git_diff(*args)` (line 98). -/
def git_diff_invocations (args : List String) : List Invocation :=
  [⟨["git", "diff"] ++ args, true⟩]

/-- `Task.reset_branches` (lines 105-114): `git reset --hard` without
`check`, checkout of `main`, then per tracked branch a `git branch -D`
without `check` and a checked `git checkout -b` from origin, and a final
checkout of `main`. -/
def reset_branches_invocations (branch_names : List String) : List Invocation :=
  ⟨["git", "reset", "--hard"], false⟩ ::
    (switch_branch_invocations "main" ++
      branch_names.flatMap (fun b =>
        [⟨["git", "branch", "-D", b], false⟩,
         ⟨["git", "checkout", "-b", b, "origin/" ++ b], true⟩]) ++
      switch_branch_invocations "main")

/-- C8 counterexample: the reset phase of the cherry-pick task runs
`git reset --hard` without `check=True`, so a non-zero exit status there is
ignored rather than escalated. -/
theorem reset_invocation_unchecked :
    (⟨["git", "reset", "--hard"], false⟩ : Invocation) ∈
      reset_branches_invocations ["cherry-pick-main", "cherry-pick-feature"] ∧
    ¬ ∀ inv ∈ reset_branches_invocations ["cherry-pick-main", "cherry-pick-feature"],
        inv.checked = true := by
  constructor
  · decide
  · intro h
    exact absurd (h ⟨["git", "reset", "--hard"], false⟩ (by decide)) (by decide)

/-- C8 (amended): every invocation of the read-only helpers passes
`check=True`; within `reset_branches`, an invocation omits `check=True`
exactly when it is the `git reset --hard` or a `git branch -D` of a tracked
branch. -/
theorem invocation_checked_spec (branch_names : List String) :
    (∀ inv ∈ reset_branches_invocations branch_names,
      (inv.checked = false ↔
        inv.argv = ["git", "reset", "--hard"] ∨
          ∃ b ∈ branch_names, inv.argv = ["git", "branch", "-D", b]))
    ∧ (∀ b, ∀ inv ∈ switch_branch_invocations b, inv.checked = true)
    ∧ (∀ b f, ∀ inv ∈ commit_log_invocations b f, inv.checked = true)
    ∧ (∀ c f, ∀ inv ∈ commit_show_invocations c f, inv.checked = true)
    ∧ (∀ args, ∀ inv ∈ git_diff_invocations args, inv.checked = true)
    ∧ (∀ inv ∈ branch_list_invocations, inv.checked = true)
    ∧ (∀ inv ∈ current_branch_invocations, inv.checked = true) := by
  refine ⟨?_, ?_, ?_, ?_, ?_, ?_, ?_⟩
  · intro inv hinv
    simp only [reset_branches_invocations, switch_branch_invocations, List.mem_cons,
      List.mem_append, List.mem_flatMap, List.not_mem_nil, or_false] at hinv
    rcases hinv with rfl | (rfl | ⟨b, hb, rfl | rfl⟩) | rfl
    · exact iff_of_true rfl (Or.inl rfl)
    · exact iff_of_false (by simp) (by simp)
    · exact iff_of_true rfl (Or.inr ⟨b, hb, rfl⟩)
    · exact iff_of_false (by simp) (by simp)
    · exact iff_of_false (by simp) (by simp)
  · intro b inv hinv
    rcases List.mem_singleton.mp hinv with rfl; rfl
  · intro b f inv hinv
    rcases List.mem_singleton.mp hinv with rfl; rfl
  · intro c f inv hinv
    rcases List.mem_singleton.mp hinv with rfl; rfl
  · intro args inv hinv
    rcases List.mem_singleton.mp hinv with rfl; rfl
  · intro inv hinv
    rcases List.mem_singleton.mp hinv with rfl; rfl
  · intro inv hinv
    rcases List.mem_singleton.mp hinv with rfl; rfl

/-- C8 witness: at the cherry-pick task's branch list, the `git branch -D`
invocation of the first tracked branch is in the reset phase, and the
amended characterization applies to it: it is unchecked because it is a
`git branch -D` of a tracked branch. -/
theorem invocation_checked_spec_witness :
    (⟨["git", "branch", "-D", "cherry-pick-main"], false⟩ : Invocation) ∈
      reset_branches_invocations ["cherry-pick-main", "cherry-pick-feature"] ∧
    ((⟨["git", "branch", "-D", "cherry-pick-main"], false⟩ : Invocation).checked = false ↔
      (⟨["git", "branch", "-D", "cherry-pick-main"], false⟩ : Invocation).argv =
          ["git", "reset", "--hard"] ∨
        ∃ b ∈ ["cherry-pick-main", "cherry-pick-feature"],
          (⟨["git", "branch", "-D", "cherry-pick-main"], false⟩ : Invocation).argv =
            ["git", "branch", "-D", b]) :=
  ⟨by decide,
    (invocation_checked_spec ["cherry-pick-main", "cherry-pick-feature"]).1
      ⟨["git", "branch", "-D", "cherry-pick-main"], false⟩ (by decide)⟩

end GitTasks

namespace GitTasks

/-! ### State semantics of `Task.reset_branches` (lines 105-114)

A small-step model of the git commands the reset phase runs, on a state
holding the local branch references, the current branch and the checked-out
working-tree content.  The remote (`origin/*` heads) and the mapping from
commits to tree content are fixed by the environment: the reset phase never
changes them. -/

/-- Immutable surroundings of a reset run: the origin head of each branch
name and the tree content attached to each commit. -/
structure GitEnv where
  origin : String → String
  content : String → String

/-- Mutable repository state during a reset run. -/
structure GitState where
  localBranches : String → Option String
  current : String
  worktree : String

theorem GitState.ext_eq (a b : GitState) (h₁ : a.localBranches = b.localBranches)
    (h₂ : a.current = b.current) (h₃ : a.worktree = b.worktree) : a = b := by
  cases a; cases b; cases h₁; cases h₂; cases h₃; rfl

/-- `git reset --hard`: discard local modifications, restoring the content
of the current branch's head commit. -/
def gitResetHard (env : GitEnv) (s : GitState) : GitState :=
  { s with worktree := env.content ((s.localBranches s.current).getD "") }

/-- `git checkout <branch>` of an existing branch (`switch_branch`): make
it current and check out its content. -/
def gitCheckoutBranch (env : GitEnv) (branch : String) (s : GitState) : GitState :=
  { s with current := branch,
           worktree := env.content ((s.localBranches branch).getD "") }

/-- `git branch -D <b>`: delete the local branch; git refuses when `b` is
the current branch (the engine runs this from `main`, and a failure is not
escalated, see C8). -/
def gitBranchDelete (b : String) (s : GitState) : GitState :=
  if s.current = b then s
  else { s with localBranches := fun x => if x = b then none else s.localBranches x }

/-- `git checkout -b <b> origin/<b>`: recreate the branch at the origin
head and switch to it. -/
def gitCheckoutNew (env : GitEnv) (b : String) (s : GitState) : GitState :=
  { localBranches := fun x => if x = b then some (env.origin b) else s.localBranches x,
    current := b,
    worktree := env.content (env.origin b) }

/-- `Task.reset_branches`: hard reset, switch to `main`, then for each
tracked branch delete and recreate it from origin, and switch back to
`main`. -/
def reset_branches (env : GitEnv) (branch_names : List String) (s : GitState) : GitState :=
  gitCheckoutBranch env "main"
    (branch_names.foldl (fun t b => gitCheckoutNew env b (gitBranchDelete b t))
      (gitCheckoutBranch env "main" (gitResetHard env s)))

theorem resetStep_localBranches (env : GitEnv) (b : String) (t : GitState) :
    (gitCheckoutNew env b (gitBranchDelete b t)).localBranches =
      fun x => if x = b then some (env.origin b) else t.localBranches x := by
  funext x
  by_cases hx : x = b
  · subst hx; simp [gitCheckoutNew]
  · by_cases hc : t.current = b <;> simp [gitCheckoutNew, gitBranchDelete, hx, hc]

theorem resetFold_localBranches (env : GitEnv) (branch_names : List String) :
    ∀ t : GitState,
      (branch_names.foldl (fun t b => gitCheckoutNew env b (gitBranchDelete b t))
          t).localBranches =
        fun x => if x ∈ branch_names then some (env.origin x) else t.localBranches x := by
  induction branch_names with
  | nil => intro t; funext x; simp
  | cons b rest ih =>
    intro t
    rw [List.foldl_cons, ih]
    funext x
    rw [resetStep_localBranches]
    by_cases hr : x ∈ rest
    · simp [hr]
    · by_cases hx : x = b <;> simp [hr, hx]

/-- Closed form of a reset run: every tracked branch points at its origin
head, every other branch is untouched, the current branch is `main`, and
the worktree holds the content of `main`'s head. -/
theorem reset_branches_eq (env : GitEnv) (branch_names : List String)
    (hmain : "main" ∉ branch_names) (s : GitState) :
    reset_branches env branch_names s =
      { localBranches :=
          fun x => if x ∈ branch_names then some (env.origin x) else s.localBranches x,
        current := "main",
        worktree := env.content ((s.localBranches "main").getD "") } := by
  unfold reset_branches
  refine GitState.ext_eq _ _ ?_ rfl ?_
  · rw [show (gitCheckoutBranch env "main"
        (branch_names.foldl (fun t b => gitCheckoutNew env b (gitBranchDelete b t))
          (gitCheckoutBranch env "main" (gitResetHard env s)))).localBranches =
        (branch_names.foldl (fun t b => gitCheckoutNew env b (gitBranchDelete b t))
          (gitCheckoutBranch env "main" (gitResetHard env s))).localBranches from rfl,
      resetFold_localBranches]
    rfl
  · show env.content
        (((branch_names.foldl (fun t b => gitCheckoutNew env b (gitBranchDelete b t))
          (gitCheckoutBranch env "main" (gitResetHard env s))).localBranches "main").getD "") = _
    rw [resetFold_localBranches]
    simp [hmain, gitCheckoutBranch, gitResetHard]

/-- C9: the reset operation is idempotent — for every environment, every
task branch list not containing `main` (true of all 24 tasks), and every
starting state, resetting twice equals resetting once. -/
theorem reset_branches_idempotent (env : GitEnv) (branch_names : List String)
    (hmain : "main" ∉ branch_names) (s : GitState) :
    reset_branches env branch_names (reset_branches env branch_names s) =
      reset_branches env branch_names s := by
  rw [reset_branches_eq env branch_names hmain s,
      reset_branches_eq env branch_names hmain]
  refine GitState.ext_eq _ _ ?_ rfl ?_
  · funext x
    by_cases hx : x ∈ branch_names <;> simp [hx]
  · simp [hmain]

/-- C9 witness: at the cherry-pick task's branch list (which does not
contain `main`) and a concrete starting state, two resets equal one. -/
theorem reset_branches_idempotent_witness :
    "main" ∉ ["cherry-pick-main", "cherry-pick-feature"] ∧
    reset_branches ⟨fun _ => "o", fun _ => "tree"⟩
        ["cherry-pick-main", "cherry-pick-feature"]
        (reset_branches ⟨fun _ => "o", fun _ => "tree"⟩
          ["cherry-pick-main", "cherry-pick-feature"] ⟨fun _ => none, "x", "w"⟩) =
      reset_branches ⟨fun _ => "o", fun _ => "tree"⟩
        ["cherry-pick-main", "cherry-pick-feature"] ⟨fun _ => none, "x", "w"⟩ :=
  ⟨by decide,
    reset_branches_idempotent ⟨fun _ => "o", fun _ => "tree"⟩
      ["cherry-pick-main", "cherry-pick-feature"] (by decide) ⟨fun _ => none, "x", "w"⟩⟩

end GitTasks
